import Mathlib

/-!
# Verification of the stellar-structure integrator (`stellar_structure.ipynb`)

This file embeds the stellar-structure notebook's numerical core in Lean:
the physical constants, the four derivative functions, the equation of
state, the opacity and nuclear-rate laws, the temperature-gradient
selector, and the explicit-Euler integration driver `make_star`.

Floating-point arithmetic is modelled by exact real arithmetic (`ℝ`).
Functions whose bodies are fill-in placeholders in the notebook
(`# ADD CODE HERE`) are modelled from the specification and carry a
`Modelled from the spec:` doc comment; everything else is translated
directly from the notebook source.
-/

namespace StellarStructure

/-- Newton's constant, erg cm g⁻², from the notebook's constants cell. -/
noncomputable def G : ℝ := 6.7e-8

/-- Speed of light, cm s⁻¹, from the notebook's constants cell. -/
noncomputable def c : ℝ := 3.0e10

/-- Boltzmann's constant, from the notebook's constants cell. -/
noncomputable def k : ℝ := 1.4e-16

/-- Radiation constant, erg cm⁻³ K⁻⁴, from the notebook's constants cell. -/
noncomputable def a : ℝ := 7.6e-15

/-- Thomson cross-section, cm², from the notebook's constants cell. -/
noncomputable def sigmaT : ℝ := 6.7e-25

/-- Mass of hydrogen, g, from the notebook's constants cell. -/
noncomputable def mH : ℝ := 1.7e-24

/-- Energy released by one set of p-p reactions; 26.2 MeV in erg (source). -/
noncomputable def Q : ℝ := 26.2 * 1e6 * 1.6e-12

/-- Nuclear cross-section constant; 4e-46 cm² keV in cm² erg (source). -/
noncomputable def S0 : ℝ := 4.0e-46 * 1e3 * 1.6e-12

/-- Gamow energy; 500 keV in erg (source). -/
noncomputable def EG : ℝ := 500.0 * 1e3 * 1.6e-12

/-- Adiabatic index for a monatomic gas (source). -/
noncomputable def gamma : ℝ := 5.0 / 3.0

/-- Reduced mass for two protons, a local binding inside `calc_epsilon`
in the source, hoisted to a named constant. -/
noncomputable def mu : ℝ := mH / 2

/-- `M_deriv(r, rho)`: dM/dr from mass conservation, `4 π r² ρ`.
This body is fully written out in the notebook source. -/
noncomputable def M_deriv (r rho : ℝ) : ℝ := 4.0 * Real.pi * r ^ 2 * rho

/-- Modelled from the spec: the body of `P_deriv` is a student fill-in
placeholder in the notebook; the governing equation
`dP/dr = -G M ρ / r²` (hydrostatic equilibrium) is stated both in the
notebook's markdown and in spec §4.5. -/
noncomputable def P_deriv (r M rho : ℝ) : ℝ := -(G * M * rho) / r ^ 2

/-- Modelled from the spec: the body of `T_deriv_rad` is a student fill-in
placeholder in the notebook; the governing equation
`dT/dr = -3 L κ ρ / (4 π r² · 4 a c T³)` (radiative transfer) is stated
both in the notebook's markdown and in spec §4.5. -/
noncomputable def T_deriv_rad (r L kappa rho T : ℝ) : ℝ :=
  -(3.0 * L * kappa * rho) / (4.0 * Real.pi * r ^ 2 * 4.0 * a * c * T ^ 3)

/-- Modelled from the spec: the body of `L_deriv` is a student fill-in
placeholder in the notebook; the governing equation `dL/dr = 4 π r² ρ ε`
(energy conservation) is stated both in the notebook's markdown and in
spec §4.5. -/
noncomputable def L_deriv (r rho epsilon : ℝ) : ℝ :=
  4.0 * Real.pi * r ^ 2 * rho * epsilon

/-- Modelled from the spec: the body of `calc_rho` is a student fill-in
placeholder in the notebook; the inverted ideal-gas law
`ρ = (m̄ / (k T)) · P` is stated both in the notebook's markdown and in
spec §4.2. -/
noncomputable def calc_rho (P T mbar : ℝ) : ℝ := mbar / (k * T) * P

/-- Modelled from the spec: the body of `calc_kappa` is a student fill-in
placeholder in the notebook; the Thomson-scattering law
`κ = σ_T / (2 m_H) · (1 + X)` is stated both in the notebook's markdown
and in spec §4.3. -/
noncomputable def calc_kappa (X : ℝ) : ℝ := sigmaT / (2.0 * mH) * (1.0 + X)

/-- `calc_epsilon(rho, T, X)`: p-p-chain power density. This body is fully
written out in the notebook source (with `mu = mH / 2`):
`ε = (2^(5/3) √2/√3) · (ρ X² / (mH² √mu)) · (Q S0) · (EG^(1/6)/(k T)^(2/3))
     · exp(-3 (EG/(4 k T))^(1/3))`. -/
noncomputable def calc_epsilon (rho T X : ℝ) : ℝ :=
  (2.0 ^ ((5 : ℝ) / 3) * Real.sqrt 2 / Real.sqrt 3) *
    ((rho * X ^ 2) / (mH ^ 2 * Real.sqrt mu)) * (Q * S0) *
    (EG ^ ((1 : ℝ) / 6) / (k * T) ^ ((2 : ℝ) / 3)) *
    Real.exp (-3.0 * (EG / (4.0 * k * T)) ^ ((1 : ℝ) / 3))

open Classical in
/-- The temperature-gradient selector `T_deriv`. The comparison of
absolute values and the branch structure are written out in the source;
the two gradient expressions are fill-in placeholders, modelled from the
spec (§4.6): the radiative gradient comes from `T_deriv_rad` and the
convective threshold is `((γ-1)/γ) · (T/P) · dP/dr` with `γ = 5/3`. -/
noncomputable def T_deriv (r L kappa rho T P dPdr : ℝ) : ℝ :=
  let dTdr_rad := T_deriv_rad r L kappa rho T
  let dTdr_conv := (gamma - 1) / gamma * (T / P) * dPdr
  if |dTdr_rad| > |dTdr_conv| then dTdr_conv else dTdr_rad

/-- Maximum radius of the integration grid, cm (hard-coded in `make_star`). -/
noncomputable def rmax : ℝ := 1.0e12

/-- Number of grid steps (hard-coded in `make_star`). -/
def nstep : ℕ := 100000

/-- `np.linspace(0, stop, num)` evaluated at index `i`:
`num` equally spaced values from `0` to `stop` inclusive. -/
noncomputable def linspace (stop : ℝ) (num : ℕ) (i : ℕ) : ℝ :=
  stop * i / ((num : ℝ) - 1)

/-- `dr = r[1] - r[0]`, the uniform grid spacing (source). -/
noncomputable def dr : ℝ := linspace rmax nstep 1 - linspace rmax nstep 0

/-- The radial grid after the half-step shift: `r = linspace(...) + dr/2`
(source: shift up by half a step to avoid dividing by zero). -/
noncomputable def r_grid (i : ℕ) : ℝ := linspace rmax nstep i + dr / 2.0

/-- Average particle mass from composition, computed at the top of
`make_star` in the source: `mbar = mH * 2.0 / (1.0 + 3.0 X + 0.5 Y)`. -/
noncomputable def mbar (X Y : ℝ) : ℝ :=
  mH * 2.0 / (1.0 + 3.0 * X + 0.5 * Y)

/-- One per-step snapshot of the seven profile quantities (other than the
radius, which is a pure function of the index). -/
structure StarState where
  M : ℝ
  P : ℝ
  T : ℝ
  L : ℝ
  rho : ℝ
  kappa : ℝ
  epsilon : ℝ

/-- Step 0 of the integration, from the source's initial-condition block:
`M[0]=0, P[0]=P0, T[0]=T0, L[0]=0`, then `ρ, κ, ε` derived from them. -/
noncomputable def init_state (T0 P0 X Y : ℝ) : StarState :=
  let rho0 := calc_rho P0 T0 (mbar X Y)
  { M := 0.0, P := P0, T := T0, L := 0.0, rho := rho0,
    kappa := calc_kappa X, epsilon := calc_epsilon rho0 T0 X }

/-- Modelled from the spec: the body of the `make_star` loop is a student
fill-in placeholder in the notebook.  Following the notebook's comments and
spec §4.7.3(a–c): first advance each of `M, P, T, L` by
`value_{i-1} + derivative · Δr` with every derivative evaluated from the
previous step's state (at radius `rprev = r[i-1]`, using the previous
density), then recompute `ρ, κ, ε` from the newly advanced `P, T` and the
fixed composition. -/
noncomputable def euler_step (X mb rprev : ℝ) (s : StarState) : StarState :=
  let dPdr := P_deriv rprev s.M s.rho
  let Mi := s.M + M_deriv rprev s.rho * dr
  let Pi := s.P + dPdr * dr
  let Ti := s.T + T_deriv rprev s.L s.kappa s.rho s.T s.P dPdr * dr
  let Li := s.L + L_deriv rprev s.rho s.epsilon * dr
  let rhoi := calc_rho Pi Ti mb
  { M := Mi, P := Pi, T := Ti, L := Li, rho := rhoi,
    kappa := calc_kappa X, epsilon := calc_epsilon rhoi Ti X }

/-- The sequence of per-step states computed by the `make_star` loop
(ignoring the early exit, which only affects how much of the sequence is
retained): `states i` is the state the loop writes at index `i`. -/
noncomputable def states (T0 P0 X Y : ℝ) : ℕ → StarState
  | 0 => init_state T0 P0 X Y
  | i + 1 => euler_step X (mbar X Y) (r_grid i) (states T0 P0 X Y i)

/-- The surface test of the source loop:
`P[i] <= 0.0 or T[i] <= 0.0 or rho[i] <= 0.0`. -/
def surface (s : StarState) : Prop := s.P ≤ 0.0 ∨ s.T ≤ 0.0 ∨ s.rho ≤ 0.0

/-- The set of loop indices at which the source's `break` would fire:
indices `1 ≤ i ≤ nstep - 1` whose freshly computed state fails the
surface test. -/
def stopSet (T0 P0 X Y : ℝ) : Set ℕ :=
  {i | 1 ≤ i ∧ i ≤ nstep - 1 ∧ surface (states T0 P0 X Y i)}

open Classical in
/-- The value of the loop variable `i` after the `make_star` loop ends:
the first index at which the surface test fires (the `break`), or
`nstep - 1` when the loop runs to completion. -/
noncomputable def i_last (T0 P0 X Y : ℝ) : ℕ :=
  if (stopSet T0 P0 X Y).Nonempty then sInf (stopSet T0 P0 X Y)
  else nstep - 1

/-- The eight equal-length sequences returned by `make_star` after the
post-loop truncation `x = x[0:i+1]`. -/
structure Profile where
  r : List ℝ
  M : List ℝ
  P : List ℝ
  T : List ℝ
  L : List ℝ
  rho : List ℝ
  kappa : List ℝ
  epsilon : List ℝ

/-- The integration driver `make_star(T0, P0, X, Y)`: run the loop,
then truncate every array to `[0 : i_last + 1]` and return the tuple
`(r, M, P, T, L, rho, kappa, epsilon)`. -/
noncomputable def make_star (T0 P0 X Y : ℝ) : Profile :=
  { r := (List.range (i_last T0 P0 X Y + 1)).map r_grid,
    M := (List.range (i_last T0 P0 X Y + 1)).map fun i => (states T0 P0 X Y i).M,
    P := (List.range (i_last T0 P0 X Y + 1)).map fun i => (states T0 P0 X Y i).P,
    T := (List.range (i_last T0 P0 X Y + 1)).map fun i => (states T0 P0 X Y i).T,
    L := (List.range (i_last T0 P0 X Y + 1)).map fun i => (states T0 P0 X Y i).L,
    rho := (List.range (i_last T0 P0 X Y + 1)).map fun i => (states T0 P0 X Y i).rho,
    kappa := (List.range (i_last T0 P0 X Y + 1)).map fun i => (states T0 P0 X Y i).kappa,
    epsilon := (List.range (i_last T0 P0 X Y + 1)).map fun i => (states T0 P0 X Y i).epsilon }

/-- The stellar radius printed by `make_star`: `r[i]` at the final loop
index. -/
noncomputable def r_star (T0 P0 X Y : ℝ) : ℝ := r_grid (i_last T0 P0 X Y)

/-- The stellar mass printed by `make_star`: `M[i]` at the final loop
index. -/
noncomputable def M_star (T0 P0 X Y : ℝ) : ℝ :=
  (states T0 P0 X Y (i_last T0 P0 X Y)).M

/-- The stellar luminosity printed by `make_star`: `L[i]` at the final
loop index. -/
noncomputable def L_star (T0 P0 X Y : ℝ) : ℝ :=
  (states T0 P0 X Y (i_last T0 P0 X Y)).L

/-- The constant `C` of the spec's reference p-p formula (§4.4 / claim C8),
written exactly as the claim determines it from the source constants. -/
noncomputable def Cpp : ℝ :=
  (2.0 ^ ((5 : ℝ) / 3) * Real.sqrt 2 / Real.sqrt 3) * Q * S0 *
    EG ^ ((1 : ℝ) / 6) / (mH ^ 2 * Real.sqrt mu * k ^ ((2 : ℝ) / 3))

/-- The constant `β` of the spec's reference p-p formula (§4.4 / claim C8),
written exactly as the claim determines it from the source constants. -/
noncomputable def betapp : ℝ := 3 * (EG / (4 * k)) ^ ((1 : ℝ) / 3)

/-! ## Basic lemmas about the grid and the state sequence -/

theorem dr_eq : dr = 1e12 / 99999 := by
  simp [dr, linspace, rmax, nstep]
  norm_num

theorem dr_pos : 0 < dr := by
  rw [dr_eq]; norm_num

theorem r_grid_eq (i : ℕ) : r_grid i = rmax * i / 99999 + dr / 2 := by
  simp [r_grid, linspace, nstep]
  norm_num

theorem states_zero (T0 P0 X Y : ℝ) :
    states T0 P0 X Y 0 = init_state T0 P0 X Y := rfl

theorem states_succ (T0 P0 X Y : ℝ) (i : ℕ) :
    states T0 P0 X Y (i + 1) =
      euler_step X (mbar X Y) (r_grid i) (states T0 P0 X Y i) := rfl

theorem euler_step_M (X mb rprev : ℝ) (s : StarState) :
    (euler_step X mb rprev s).M = s.M + M_deriv rprev s.rho * dr := rfl

theorem euler_step_P (X mb rprev : ℝ) (s : StarState) :
    (euler_step X mb rprev s).P = s.P + P_deriv rprev s.M s.rho * dr := rfl

theorem euler_step_T (X mb rprev : ℝ) (s : StarState) :
    (euler_step X mb rprev s).T =
      s.T + T_deriv rprev s.L s.kappa s.rho s.T s.P
        (P_deriv rprev s.M s.rho) * dr := rfl

theorem euler_step_L (X mb rprev : ℝ) (s : StarState) :
    (euler_step X mb rprev s).L = s.L + L_deriv rprev s.rho s.epsilon * dr := rfl

theorem euler_step_rho (X mb rprev : ℝ) (s : StarState) :
    (euler_step X mb rprev s).rho =
      calc_rho (euler_step X mb rprev s).P (euler_step X mb rprev s).T mb := rfl

theorem euler_step_kappa (X mb rprev : ℝ) (s : StarState) :
    (euler_step X mb rprev s).kappa = calc_kappa X := rfl

theorem euler_step_epsilon (X mb rprev : ℝ) (s : StarState) :
    (euler_step X mb rprev s).epsilon =
      calc_epsilon (euler_step X mb rprev s).rho (euler_step X mb rprev s).T X := rfl

theorem calc_epsilon_X_zero (rho T : ℝ) : calc_epsilon rho T 0 = 0 := by
  unfold calc_epsilon
  norm_num

theorem T_deriv_rad_L_zero (r kappa rho T : ℝ) :
    T_deriv_rad r 0 kappa rho T = 0 := by
  unfold T_deriv_rad
  norm_num

theorem T_deriv_L_zero (r kappa rho T P dPdr : ℝ) :
    T_deriv r 0 kappa rho T P dPdr = 0 := by
  unfold T_deriv
  rw [T_deriv_rad_L_zero]
  dsimp only
  rw [abs_zero, if_neg (not_lt.2 (abs_nonneg _))]

theorem states_one_P (T0 P0 X Y : ℝ) : (states T0 P0 X Y 1).P = P0 := by
  show (euler_step X (mbar X Y) (r_grid 0) (init_state T0 P0 X Y)).P = P0
  rw [euler_step_P]
  unfold init_state P_deriv
  norm_num

theorem mbar_pos (X Y : ℝ) (hX : 0 ≤ X) (hY : 0 ≤ Y) : 0 < mbar X Y := by
  have hmH : (0 : ℝ) < mH := by norm_num [mH]
  unfold mbar
  apply div_pos (by linarith)
  linarith

theorem dr_lb : 1e7 ≤ dr := by
  rw [dr_eq]; norm_num

theorem dr_ub : dr ≤ 1.1e7 := by
  rw [dr_eq]; norm_num

theorem r_grid_lb (j : ℕ) : dr / 2 ≤ r_grid j := by
  rw [r_grid_eq]
  have h : (0 : ℝ) ≤ rmax * j / 99999 := by
    have : (0 : ℝ) < rmax := by norm_num [rmax]
    positivity
  linarith

theorem r_grid_pos (j : ℕ) : 0 < r_grid j := by
  have h1 := r_grid_lb j
  have h2 := dr_lb
  linarith

theorem r_grid_le (j : ℕ) (hj : j ≤ 99998) : r_grid j ≤ 1e12 := by
  rw [r_grid_eq, dr_eq, rmax]
  have h : (j : ℝ) ≤ 99998 := by exact_mod_cast hj
  nlinarith

theorem i_last_pos (T0 P0 X Y : ℝ) : 1 ≤ i_last T0 P0 X Y := by
  unfold i_last
  split
  · next h => exact (Nat.sInf_mem h).1
  · norm_num [nstep]

theorem i_last_le (T0 P0 X Y : ℝ) : i_last T0 P0 X Y ≤ nstep - 1 := by
  unfold i_last
  split
  · next h => exact (Nat.sInf_mem h).2.1
  · exact le_refl _

/-! ## C5: radial grid construction -/

/-- C5 counterexample: the last grid point is `r_max + Δr/2`, not the
claimed `r_max − Δr/2` (the source shifts the whole `linspace` grid, whose
last entry is `r_max`, up by `Δr/2`). -/
theorem C5_last_point_counterexample :
    r_grid (nstep - 1) = rmax + dr / 2 ∧ r_grid (nstep - 1) ≠ rmax - dr / 2 := by
  have h : r_grid (nstep - 1) = rmax + dr / 2 := by
    rw [r_grid_eq]
    norm_num [nstep, rmax]
  refine ⟨h, ?_⟩
  rw [h, dr_eq, rmax]
  norm_num

/-- C5 (amended): the grid has exactly 100000 points with uniform spacing
`Δr = r_max/(n−1)`, first point `Δr/2`, and last point `r_max + Δr/2`. -/
theorem C5_grid_construction :
    ((List.range nstep).map r_grid).length = 100000 ∧
    dr = rmax / ((nstep : ℝ) - 1) ∧
    (∀ i : ℕ, r_grid (i + 1) - r_grid i = dr) ∧
    r_grid 0 = dr / 2 ∧
    r_grid (nstep - 1) = rmax + dr / 2 := by
  refine ⟨by simp [nstep], ?_, ?_, ?_, C5_last_point_counterexample.1⟩
  · rw [dr_eq, rmax, nstep]; norm_num
  · intro i
    simp only [r_grid, linspace, dr]
    push_cast
    ring
  · rw [r_grid_eq]
    norm_num

/-! ## C9: equation of state -/

/-- C9: `calc_rho` is the inverted ideal-gas law `ρ = (m̄/(k T)) · P`; it is
linear in `P` at fixed `T, m̄`, linear in `1/T` at fixed `P, m̄` (with
coefficient `m̄ P / k`), and strictly positive for positive inputs. -/
theorem C9_calc_rho (P T mb : ℝ) (hT : 0 < T) (hmb : 0 < mb) :
    calc_rho P T mb = mb / (k * T) * P ∧
    (∀ c1 c2 P1 P2 : ℝ, calc_rho (c1 * P1 + c2 * P2) T mb =
      c1 * calc_rho P1 T mb + c2 * calc_rho P2 T mb) ∧
    calc_rho P T mb = mb * P / k * (1 / T) ∧
    (0 < P → 0 < calc_rho P T mb) := by
  have hk : (0 : ℝ) < k := by norm_num [k]
  refine ⟨rfl, ?_, ?_, ?_⟩
  · intro c1 c2 P1 P2
    unfold calc_rho
    ring
  · unfold calc_rho
    field_simp
  · intro hP
    unfold calc_rho
    positivity

/-- C9 witness: the theorem instantiated at `P = 2`, `T = 1`, `m̄ = 1`. -/
theorem C9_calc_rho_witness :
    (0 : ℝ) < 1 ∧
    (calc_rho 2 1 1 = 1 / (k * 1) * 2 ∧
      (∀ c1 c2 P1 P2 : ℝ, calc_rho (c1 * P1 + c2 * P2) 1 1 =
        c1 * calc_rho P1 1 1 + c2 * calc_rho P2 1 1) ∧
      calc_rho 2 1 1 = 1 * 2 / k * (1 / 1) ∧
      (0 < (2 : ℝ) → 0 < calc_rho 2 1 1)) :=
  ⟨one_pos, C9_calc_rho 2 1 1 one_pos one_pos⟩

/-! ## C10: mean particle mass and central density -/

/-- C10: `make_star` derives the mean particle mass as
`m̄ = 2 m_H / (1 + 3X + Y/2)`, which is strictly positive for every valid
composition, and the first entry of the returned density profile is
exactly `calc_rho(P0, T0, m̄)`. -/
theorem C10_mbar_and_central_density (T0 P0 X Y : ℝ)
    (hX : 0 ≤ X) (hY : 0 ≤ Y) (_hXY : X + Y ≤ 1) :
    mbar X Y = 2 * mH / (1 + 3 * X + 0.5 * Y) ∧
    0 < mbar X Y ∧
    (make_star T0 P0 X Y).rho.head? = some (calc_rho P0 T0 (mbar X Y)) := by
  have hmH : (0 : ℝ) < mH := by norm_num [mH]
  refine ⟨by unfold mbar; ring_nf, ?_, ?_⟩
  · unfold mbar
    apply div_pos (by linarith)
    nlinarith
  · have hrange : List.range (i_last T0 P0 X Y + 1) =
        0 :: (List.range (i_last T0 P0 X Y)).map Nat.succ :=
      List.range_succ_eq_map _
    simp [make_star, hrange, states, init_state]

/-- C10 witness: the theorem instantiated at the spec's example
composition `X = 0.7`, `Y = 0.28` with solar-like boundary values. -/
theorem C10_mbar_witness :
    (0 : ℝ) ≤ 0.7 ∧ (0 : ℝ) ≤ 0.28 ∧ (0.7 : ℝ) + 0.28 ≤ 1 ∧
    (mbar 0.7 0.28 = 2 * mH / (1 + 3 * 0.7 + 0.5 * 0.28) ∧
      0 < mbar 0.7 0.28 ∧
      (make_star 1.5e7 1e18 0.7 0.28).rho.head? =
        some (calc_rho 1e18 1.5e7 (mbar 0.7 0.28))) :=
  ⟨by norm_num, by norm_num, by norm_num,
    C10_mbar_and_central_density 1.5e7 1e18 0.7 0.28 (by norm_num) (by norm_num)
      (by norm_num)⟩

/-! ## C7: temperature-gradient selector -/

/-- C7: `T_deriv` computes the convective threshold
`((γ−1)/γ)·(T/P)·dP/dr` with `γ = 5/3` (so the prefactor is `2/5`), and
returns the convective value exactly when the radiative gradient exceeds
it in absolute magnitude, the radiative value otherwise.  As a pure
function of its arguments, the choice at one step is independent of any
other step. -/
theorem C7_T_deriv_selector (r L kappa rho T P dPdr : ℝ) :
    (gamma - 1) / gamma = 2 / 5 ∧
    (|T_deriv_rad r L kappa rho T| > |(gamma - 1) / gamma * (T / P) * dPdr| →
      T_deriv r L kappa rho T P dPdr = (gamma - 1) / gamma * (T / P) * dPdr) ∧
    (|T_deriv_rad r L kappa rho T| ≤ |(gamma - 1) / gamma * (T / P) * dPdr| →
      T_deriv r L kappa rho T P dPdr = T_deriv_rad r L kappa rho T) := by
  refine ⟨by norm_num [gamma], ?_, ?_⟩
  · intro h
    unfold T_deriv
    rw [if_pos h]
  · intro h
    unfold T_deriv
    rw [if_neg (not_lt.2 h)]

/-- C7 witness: both branches exercised with literal inputs.  With `L = 0`
the radiative gradient vanishes and the radiative branch is taken; with a
nonzero radiative gradient against a zero threshold (`dPdr = 0`) the
convective branch is taken. -/
theorem C7_T_deriv_selector_witness :
    (|T_deriv_rad 1 0 1 1 1.5e7| ≤
        |(gamma - 1) / gamma * ((1.5e7 : ℝ) / 1e18) * (-1)| ∧
      T_deriv 1 0 1 1 1.5e7 1e18 (-1) = T_deriv_rad 1 0 1 1 1.5e7) ∧
    (|T_deriv_rad 1 1 1 1 1| > |(gamma - 1) / gamma * ((1 : ℝ) / 1) * 0| ∧
      T_deriv 1 1 1 1 1 1 0 = (gamma - 1) / gamma * ((1 : ℝ) / 1) * 0) := by
  have hrad0 : T_deriv_rad 1 0 1 1 (1.5e7 : ℝ) = 0 := by
    unfold T_deriv_rad
    norm_num
  have h1 : |T_deriv_rad 1 0 1 1 (1.5e7 : ℝ)| ≤
      |(gamma - 1) / gamma * ((1.5e7 : ℝ) / 1e18) * (-1)| := by
    rw [hrad0, abs_zero]
    exact abs_nonneg _
  have hneg : T_deriv_rad 1 1 1 1 (1 : ℝ) < 0 := by
    unfold T_deriv_rad
    apply div_neg_of_neg_of_pos
    · norm_num
    · have hπ := Real.pi_pos
      unfold a c
      positivity
  have h2 : |(gamma - 1) / gamma * ((1 : ℝ) / 1) * 0| <
      |T_deriv_rad 1 1 1 1 (1 : ℝ)| := by
    rw [mul_zero, abs_zero]
    exact abs_pos.2 (ne_of_lt hneg)
  exact ⟨⟨h1, (C7_T_deriv_selector 1 0 1 1 1.5e7 1e18 (-1)).2.2 h1⟩,
    ⟨h2, (C7_T_deriv_selector 1 1 1 1 1 1 0).2.1 h2⟩⟩

/-! ## C8: p-p chain reference formula -/

/-- C8: for positive density and temperature, the source's `calc_epsilon`
equals the spec's reference form `C · ρX² · T^(−2/3) · exp(−β·T^(−1/3))`
with the positive constants `C = Cpp` and `β = betapp` determined exactly
by the source constants. -/
theorem C8_epsilon_reference (rho T X : ℝ) (_hrho : 0 < rho) (hT : 0 < T) :
    0 < Cpp ∧ 0 < betapp ∧
    calc_epsilon rho T X =
      Cpp * (rho * X ^ 2) * T ^ (-((2 : ℝ) / 3)) *
        Real.exp (-(betapp * T ^ (-((1 : ℝ) / 3)))) := by
  have hk : (0 : ℝ) < k := by norm_num [k]
  have hEG : (0 : ℝ) < EG := by norm_num [EG]
  have hmH : (0 : ℝ) < mH := by norm_num [mH]
  have hmu : (0 : ℝ) < mu := by norm_num [mu, mH]
  refine ⟨?_, ?_, ?_⟩
  · unfold Cpp Q S0 EG mu mH k
    positivity
  · unfold betapp EG k
    positivity
  · have h4k : (0 : ℝ) < 4 * k := by positivity
    have hsplit : EG / (4.0 * k * T) = (EG / (4 * k)) / T := by
      ring
    have hexp : -3.0 * (EG / (4.0 * k * T)) ^ ((1 : ℝ) / 3) =
        -(betapp * T ^ (-((1 : ℝ) / 3))) := by
      rw [hsplit, Real.div_rpow (le_of_lt (div_pos hEG h4k)) hT.le,
        Real.rpow_neg hT.le, betapp]
      ring
    have hpow : EG ^ ((1 : ℝ) / 6) / (k * T) ^ ((2 : ℝ) / 3) =
        EG ^ ((1 : ℝ) / 6) / k ^ ((2 : ℝ) / 3) * T ^ (-((2 : ℝ) / 3)) := by
      rw [Real.mul_rpow hk.le hT.le, Real.rpow_neg hT.le]
      ring
    have h3 : (0 : ℝ) < Real.sqrt 3 := Real.sqrt_pos.2 (by norm_num)
    have hsmu : (0 : ℝ) < Real.sqrt mu := Real.sqrt_pos.2 hmu
    have hk23 : (0 : ℝ) < k ^ ((2 : ℝ) / 3) := Real.rpow_pos_of_pos hk _
    unfold calc_epsilon Cpp
    rw [hexp, hpow]
    field_simp [h3.ne', hsmu.ne', hk23.ne', hmH.ne']
    ring

/-- C8 witness: the theorem instantiated at `ρ = 1`, `T = 1`, `X = 0`. -/
theorem C8_epsilon_reference_witness :
    (0 : ℝ) < 1 ∧
    (0 < Cpp ∧ 0 < betapp ∧
      calc_epsilon 1 1 0 =
        Cpp * (1 * 0 ^ 2) * (1 : ℝ) ^ (-((2 : ℝ) / 3)) *
          Real.exp (-(betapp * (1 : ℝ) ^ (-((1 : ℝ) / 3))))) :=
  ⟨one_pos, C8_epsilon_reference 1 1 0 one_pos one_pos⟩

/-! ## C6: order of operations inside one loop iteration -/

/-- C6: at every step the four integrated quantities advance by
`value_{i-1} + derivative·Δr` with all derivatives (including the pressure
derivative fed to the temperature-gradient selector) evaluated from the
state at step `i-1` — in particular from the previous density — and only
then are `ρ, κ, ε` recomputed from the newly advanced `P, T` and the fixed
composition. -/
theorem C6_step_order (T0 P0 X Y : ℝ) (i : ℕ) :
    (states T0 P0 X Y (i + 1)).M =
      (states T0 P0 X Y i).M +
        M_deriv (r_grid i) (states T0 P0 X Y i).rho * dr ∧
    (states T0 P0 X Y (i + 1)).P =
      (states T0 P0 X Y i).P +
        P_deriv (r_grid i) (states T0 P0 X Y i).M (states T0 P0 X Y i).rho * dr ∧
    (states T0 P0 X Y (i + 1)).T =
      (states T0 P0 X Y i).T +
        T_deriv (r_grid i) (states T0 P0 X Y i).L (states T0 P0 X Y i).kappa
          (states T0 P0 X Y i).rho (states T0 P0 X Y i).T (states T0 P0 X Y i).P
          (P_deriv (r_grid i) (states T0 P0 X Y i).M (states T0 P0 X Y i).rho) * dr ∧
    (states T0 P0 X Y (i + 1)).L =
      (states T0 P0 X Y i).L +
        L_deriv (r_grid i) (states T0 P0 X Y i).rho
          (states T0 P0 X Y i).epsilon * dr ∧
    (states T0 P0 X Y (i + 1)).rho =
      calc_rho (states T0 P0 X Y (i + 1)).P (states T0 P0 X Y (i + 1)).T
        (mbar X Y) ∧
    (states T0 P0 X Y (i + 1)).kappa = calc_kappa X ∧
    (states T0 P0 X Y (i + 1)).epsilon =
      calc_epsilon (states T0 P0 X Y (i + 1)).rho (states T0 P0 X Y (i + 1)).T X := by
  rw [states_succ]
  exact ⟨euler_step_M _ _ _ _, euler_step_P _ _ _ _, euler_step_T _ _ _ _,
    euler_step_L _ _ _ _, euler_step_rho _ _ _ _, euler_step_kappa _ _ _ _,
    euler_step_epsilon _ _ _ _⟩

/-! ## C1: termination at the first surface index, truncation and report -/

/-- C1: if `istar` is the first index `≥ 1` (within the grid) whose state
fails the positivity test, then the loop stops there (`i_last = istar`),
the reported radius/mass/luminosity are the values at `istar`, and all
eight returned sequences are the state sequence truncated to
`[0, istar]` inclusive. -/
theorem C1_first_surface_stop (T0 P0 X Y : ℝ) (istar : ℕ)
    (h1 : 1 ≤ istar) (h2 : istar ≤ nstep - 1)
    (hsurf : surface (states T0 P0 X Y istar))
    (hmin : ∀ j, 1 ≤ j → j < istar → ¬surface (states T0 P0 X Y j)) :
    i_last T0 P0 X Y = istar ∧
    r_star T0 P0 X Y = r_grid istar ∧
    M_star T0 P0 X Y = (states T0 P0 X Y istar).M ∧
    L_star T0 P0 X Y = (states T0 P0 X Y istar).L ∧
    (make_star T0 P0 X Y).r = (List.range (istar + 1)).map r_grid ∧
    (make_star T0 P0 X Y).M =
      (List.range (istar + 1)).map (fun i => (states T0 P0 X Y i).M) ∧
    (make_star T0 P0 X Y).P =
      (List.range (istar + 1)).map (fun i => (states T0 P0 X Y i).P) ∧
    (make_star T0 P0 X Y).T =
      (List.range (istar + 1)).map (fun i => (states T0 P0 X Y i).T) ∧
    (make_star T0 P0 X Y).L =
      (List.range (istar + 1)).map (fun i => (states T0 P0 X Y i).L) ∧
    (make_star T0 P0 X Y).rho =
      (List.range (istar + 1)).map (fun i => (states T0 P0 X Y i).rho) ∧
    (make_star T0 P0 X Y).kappa =
      (List.range (istar + 1)).map (fun i => (states T0 P0 X Y i).kappa) ∧
    (make_star T0 P0 X Y).epsilon =
      (List.range (istar + 1)).map (fun i => (states T0 P0 X Y i).epsilon) := by
  have hmem : istar ∈ stopSet T0 P0 X Y := ⟨h1, h2, hsurf⟩
  have hne : (stopSet T0 P0 X Y).Nonempty := ⟨istar, hmem⟩
  have hlast : i_last T0 P0 X Y = istar := by
    unfold i_last
    rw [if_pos hne]
    have hmem2 := Nat.sInf_mem hne
    rcases lt_or_ge (sInf (stopSet T0 P0 X Y)) istar with hlt | hge
    · exact absurd hmem2.2.2 (hmin _ hmem2.1 hlt)
    · exact le_antisymm (Nat.sInf_le hmem) hge
  refine ⟨hlast, ?_⟩
  simp [make_star, r_star, M_star, L_star, hlast]

/-- C1 witness: the run `make_star(T0 = 1, P0 = −1, X = 0, Y = 0)` first
fails the surface test at step 1 (since `M[0] = 0` forces `P[1] = P0`),
so the loop stops there and reports the step-1 values. -/
theorem C1_first_surface_stop_witness :
    surface (states 1 (-1) 0 0 1) ∧
    i_last 1 (-1) 0 0 = 1 ∧
    r_star 1 (-1) 0 0 = r_grid 1 ∧
    M_star 1 (-1) 0 0 = (states 1 (-1) 0 0 1).M ∧
    L_star 1 (-1) 0 0 = (states 1 (-1) 0 0 1).L ∧
    (make_star 1 (-1) 0 0).r = (List.range 2).map r_grid := by
  have hsurf : surface (states 1 (-1) 0 0 1) := by
    left
    rw [states_one_P]
    norm_num
  have h := C1_first_surface_stop 1 (-1) 0 0 1 le_rfl (by norm_num [nstep]) hsurf
    (fun j hj hlt => absurd (lt_of_le_of_lt hj hlt) (lt_irrefl 1))
  exact ⟨hsurf, h.1, h.2.1, h.2.2.1, h.2.2.2.1, h.2.2.2.2.1⟩

/-! ## C3: absence of input validation -/

/-- C3 counterexample: at the spec's invalid-composition input
(`X = 0.9, Y = 0.9`, so `X + Y > 1`) the driver is not rejected: it runs
the integration loop and returns a profile containing at least steps 0
and 1, refuting "no stepping occurs". -/
theorem C3_no_rejection_counterexample :
    2 ≤ (make_star 1.5e7 1e18 0.9 0.9).r.length := by
  have h := i_last_pos 1.5e7 1e18 0.9 0.9
  simp only [make_star, List.length_map, List.length_range]
  omega

/-- C3 (amended): `make_star` performs no composition or boundary
validation: every call, whatever its arguments, enters the integration
loop and retains at least the first Euler step — the returned radius
sequence always has length `i_last + 1 ≥ 2`. -/
theorem C3_no_validation (T0 P0 X Y : ℝ) :
    (make_star T0 P0 X Y).r.length = i_last T0 P0 X Y + 1 ∧
    2 ≤ (make_star T0 P0 X Y).r.length := by
  have h := i_last_pos T0 P0 X Y
  have hlen : (make_star T0 P0 X Y).r.length = i_last T0 P0 X Y + 1 := by
    simp [make_star]
  exact ⟨hlen, by omega⟩

/-! ## C4: positivity of retained steps -/

/-- C4 counterexample: in the run `make_star(1, −1, 0, 0)` the returned
pressure sequence contains the non-positive entry `P[1] = −1` (the
surface-triggering step is itself retained), refuting the claim that
every retained step has `P > 0`. -/
theorem C4_retained_nonpositive_counterexample :
    (states 1 (-1) 0 0 1).P ≤ 0 ∧
    (states 1 (-1) 0 0 1).P ∈ (make_star 1 (-1) 0 0).P := by
  constructor
  · rw [states_one_P]
    norm_num
  · have h := i_last_pos 1 (-1) 0 0
    exact List.mem_map_of_mem _ (List.mem_range.2 (by omega))

/-- C4 (amended): in every run with positive central pressure and
temperature and nonnegative composition fractions, every retained step
strictly before the final one satisfies `P > 0`, `T > 0`, `ρ > 0`; only
the final retained step (the surface-triggering one, or step 0 itself
when the boundary values are non-physical) can violate positivity. -/
theorem C4_positive_before_last (T0 P0 X Y : ℝ)
    (hT0 : 0 < T0) (hP0 : 0 < P0) (hX : 0 ≤ X) (hY : 0 ≤ Y)
    (i : ℕ) (hi : i < i_last T0 P0 X Y) :
    0 < (states T0 P0 X Y i).P ∧ 0 < (states T0 P0 X Y i).T ∧
      0 < (states T0 P0 X Y i).rho := by
  have hk : (0 : ℝ) < k := by norm_num [k]
  rcases Nat.eq_zero_or_pos i with hz | hpos
  · subst hz
    have hmb := mbar_pos X Y hX hY
    refine ⟨hP0, hT0, ?_⟩
    show 0 < (init_state T0 P0 X Y).rho
    unfold init_state calc_rho
    exact mul_pos (div_pos hmb (mul_pos hk hT0)) hP0
  · have hns : ¬surface (states T0 P0 X Y i) := by
      intro hs
      have hmem : i ∈ stopSet T0 P0 X Y :=
        ⟨hpos, le_trans (le_of_lt hi) (i_last_le T0 P0 X Y), hs⟩
      have hne : (stopSet T0 P0 X Y).Nonempty := ⟨i, hmem⟩
      have hle : i_last T0 P0 X Y ≤ i := by
        unfold i_last
        rw [if_pos hne]
        exact Nat.sInf_le hmem
      omega
    unfold surface at hns
    push_neg at hns
    norm_num at hns
    exact hns

/-- C4 amended-claim witness: step 0 of the run
`make_star(1, 1, 0, 0)` (valid boundary values) is strictly positive. -/
theorem C4_positive_before_last_witness :
    0 < (states 1 1 0 0 0).P ∧ 0 < (states 1 1 0 0 0).T ∧
      0 < (states 1 1 0 0 0).rho :=
  C4_positive_before_last 1 1 0 0 one_pos one_pos le_rfl le_rfl 0
    (i_last_pos 1 1 0 0)

/-! ## C2: a run that exhausts the grid -/

/-- Inductive invariant for the run `make_star(T0 = 1, P0 = 1e-100, X = 0,
Y = 0)`: with zero hydrogen the nuclear rate vanishes, so `L` stays `0`
and `T` stays `1`; the mass stays tiny (`≤ i·1e-75`) and the pressure
decays by at most `1e-191` per step, hence stays strictly positive for
all 100000 grid steps. -/
theorem C2run_invariant : ∀ i : ℕ, i ≤ 99999 →
    (states 1 1e-100 0 0 i).T = 1 ∧
    (states 1 1e-100 0 0 i).L = 0 ∧
    (states 1 1e-100 0 0 i).epsilon = 0 ∧
    0 ≤ (states 1 1e-100 0 0 i).M ∧
    (states 1 1e-100 0 0 i).M ≤ (i : ℝ) * 1e-75 ∧
    1e-100 - (i : ℝ) * 1e-191 ≤ (states 1 1e-100 0 0 i).P ∧
    (states 1 1e-100 0 0 i).P ≤ 1e-100 ∧
    (states 1 1e-100 0 0 i).rho =
      mbar 0 0 / k * (states 1 1e-100 0 0 i).P := by
  intro i
  induction i with
  | zero =>
    intro _
    refine ⟨rfl, by norm_num [states, init_state], ?_, ?_, ?_, ?_, ?_, ?_⟩
    · exact calc_epsilon_X_zero _ _
    · norm_num [states, init_state]
    · norm_num [states, init_state]
    · norm_num [states, init_state]
    · norm_num [states, init_state]
    · show calc_rho 1e-100 1 (mbar 0 0) = mbar 0 0 / k * 1e-100
      unfold calc_rho
      norm_num
  | succ n ih =>
    intro hn1
    have hn : n ≤ 99999 := by omega
    obtain ⟨hT, hL, hE, hM0, hMub, hPlb, hPub, hrho⟩ := ih hn
    have hcast : (n : ℝ) ≤ 99999 := by exact_mod_cast hn
    have hdrpos := dr_pos
    have hdrl := dr_lb
    have hdru := dr_ub
    have hrlb := r_grid_lb n
    have hrpos := r_grid_pos n
    have hrub : r_grid n ≤ 1e12 := r_grid_le n (by omega)
    have hGpos : (0 : ℝ) < G := by norm_num [G]
    have hcoef : (0 : ℝ) < mbar 0 0 / k := by
      unfold mbar mH k
      norm_num
    have hPpos : 0 < (states 1 1e-100 0 0 n).P := by linarith
    have hrho_pos : 0 < (states 1 1e-100 0 0 n).rho := by
      rw [hrho]
      exact mul_pos hcoef hPpos
    have hrho_ub : (states 1 1e-100 0 0 n).rho ≤ 2.5e-108 := by
      rw [hrho]
      unfold mbar mH k
      norm_num
      linarith
    have hM_ub : (states 1 1e-100 0 0 n).M ≤ 1e-70 := by linarith
    have hr2lb : (2.5e13 : ℝ) ≤ (r_grid n) ^ 2 := by
      have h5 : (5e6 : ℝ) ≤ r_grid n := by linarith
      have := pow_le_pow_left₀ (by norm_num : (0 : ℝ) ≤ 5e6) h5 2
      nlinarith
    have hr2ub : (r_grid n) ^ 2 ≤ 1e24 := by nlinarith
    have hπub : Real.pi ≤ 3.15 := Real.pi_lt_d2.le
    -- temperature stays 1
    have hT' : (states 1 1e-100 0 0 (n + 1)).T = 1 := by
      rw [states_succ, euler_step_T, hL, T_deriv_L_zero, hT]
      ring
    -- luminosity stays 0
    have hL' : (states 1 1e-100 0 0 (n + 1)).L = 0 := by
      rw [states_succ, euler_step_L, hL, hE]
      norm_num [L_deriv]
    -- nuclear rate stays 0 (X = 0)
    have hE' : (states 1 1e-100 0 0 (n + 1)).epsilon = 0 := by
      rw [states_succ, euler_step_epsilon]
      exact calc_epsilon_X_zero _ _
    -- mass increment
    have hM'eq : (states 1 1e-100 0 0 (n + 1)).M =
        (states 1 1e-100 0 0 n).M +
          M_deriv (r_grid n) (states 1 1e-100 0 0 n).rho * dr := by
      rw [states_succ, euler_step_M]
    have hMinc_nonneg : 0 ≤ M_deriv (r_grid n) (states 1 1e-100 0 0 n).rho * dr := by
      unfold M_deriv
      have hπ := Real.pi_pos
      apply mul_nonneg _ hdrpos.le
      apply mul_nonneg _ hrho_pos.le
      positivity
    have hMinc_ub : M_deriv (r_grid n) (states 1 1e-100 0 0 n).rho * dr ≤ 1e-75 := by
      unfold M_deriv
      have hπ := Real.pi_pos
      calc 4.0 * Real.pi * r_grid n ^ 2 * (states 1 1e-100 0 0 n).rho * dr ≤
          4.0 * 3.15 * 1e24 * 2.5e-108 * 1.1e7 := by
            gcongr
        _ ≤ 1e-75 := by norm_num
    have hM'0 : 0 ≤ (states 1 1e-100 0 0 (n + 1)).M := by
      rw [hM'eq]
      linarith
    have hM'ub : (states 1 1e-100 0 0 (n + 1)).M ≤ ((n + 1 : ℕ) : ℝ) * 1e-75 := by
      rw [hM'eq]
      push_cast
      linarith
    -- pressure decrement
    have hP'eq : (states 1 1e-100 0 0 (n + 1)).P =
        (states 1 1e-100 0 0 n).P -
          G * (states 1 1e-100 0 0 n).M * (states 1 1e-100 0 0 n).rho * dr /
            (r_grid n) ^ 2 := by
      rw [states_succ, euler_step_P]
      unfold P_deriv
      ring
    have hdec_nonneg : 0 ≤ G * (states 1 1e-100 0 0 n).M *
        (states 1 1e-100 0 0 n).rho * dr / (r_grid n) ^ 2 := by
      apply div_nonneg _ (sq_nonneg _)
      exact mul_nonneg (mul_nonneg (mul_nonneg hGpos.le hM0) hrho_pos.le) hdrpos.le
    have hdec_ub : G * (states 1 1e-100 0 0 n).M *
        (states 1 1e-100 0 0 n).rho * dr / (r_grid n) ^ 2 ≤ 1e-191 := by
      have hnum : G * (states 1 1e-100 0 0 n).M *
          (states 1 1e-100 0 0 n).rho * dr ≤ G * 1e-70 * 2.5e-108 * 1.1e7 := by
        gcongr
      calc G * (states 1 1e-100 0 0 n).M * (states 1 1e-100 0 0 n).rho * dr /
          (r_grid n) ^ 2 ≤ (G * 1e-70 * 2.5e-108 * 1.1e7) / 2.5e13 := by
            apply div_le_div₀ (by norm_num [G]) hnum (by norm_num) hr2lb
        _ ≤ 1e-191 := by norm_num [G]
    have hP'lb : 1e-100 - ((n + 1 : ℕ) : ℝ) * 1e-191 ≤
        (states 1 1e-100 0 0 (n + 1)).P := by
      rw [hP'eq]
      push_cast
      linarith
    have hP'ub : (states 1 1e-100 0 0 (n + 1)).P ≤ 1e-100 := by
      rw [hP'eq]
      linarith
    -- equation of state at the new step
    have hrho' : (states 1 1e-100 0 0 (n + 1)).rho =
        mbar 0 0 / k * (states 1 1e-100 0 0 (n + 1)).P := by
      rw [states_succ, euler_step_rho, euler_step_T, hL, T_deriv_L_zero, hT]
      unfold calc_rho
      norm_num
    exact ⟨hT', hL', hE', hM'0, hM'ub, hP'lb, hP'ub, hrho'⟩

/-- C2: on the concrete run `make_star(1, 1e-100, 0, 0)` the surface test
never fires — the stop set is empty, the loop runs through all `n` steps,
the driver ends at `i = n − 1 = 99999` — and `make_star` still returns the
same plain, untagged profile as any surface-detected run, merely truncated
at `i_last = n − 1` (full length `n`). -/
theorem C2_grid_exhausted_untagged :
    stopSet 1 1e-100 0 0 = ∅ ∧
    i_last 1 1e-100 0 0 = nstep - 1 ∧
    (make_star 1 1e-100 0 0).r.length = nstep := by
  have hempty : stopSet 1 1e-100 0 0 = ∅ := by
    apply Set.eq_empty_iff_forall_not_mem.2
    intro i hi
    obtain ⟨hi1, hi2, hsurf⟩ := hi
    have hstep : nstep - 1 = 99999 := by norm_num [nstep]
    have hi99 : i ≤ 99999 := by omega
    obtain ⟨hT, hL, hE, hM0, hMub, hPlb, hPub, hrho⟩ := C2run_invariant i hi99
    have hcast : (i : ℝ) ≤ 99999 := by exact_mod_cast hi99
    have hPpos : 0 < (states 1 1e-100 0 0 i).P := by linarith
    have hcoef : (0 : ℝ) < mbar 0 0 / k := by
      unfold mbar mH k
      norm_num
    have hrho_pos : 0 < (states 1 1e-100 0 0 i).rho := by
      rw [hrho]
      exact mul_pos hcoef hPpos
    rcases hsurf with h | h | h
    · linarith
    · rw [hT] at h
      norm_num at h
    · linarith
  have hil : i_last 1 1e-100 0 0 = nstep - 1 := by
    unfold i_last
    rw [hempty]
    rw [if_neg Set.not_nonempty_empty]
  refine ⟨hempty, hil, ?_⟩
  simp only [make_star, List.length_map, List.length_range, hil]
  norm_num [nstep]

end StellarStructure
